import Mathlib

/-!
Verification development for the delivery-analytics pipeline
(`utils/data_processing.py`, `utils/metrics.py`, `predictor.py`, `main.py`).

Shallow embedding conventions:
* a pandas DataFrame is a `Table`: a row count plus an association list of
  named columns, each column a list of cells;
* a cell is `Option Val` where `none` models NaN (a missing value) and
  `Val` is either a rational number (floats are modelled as exact
  rationals) or a string;
* non-numeric cells in arithmetic positions are treated as missing
  (pandas would raise on them; the claims below only concern
  numeric-or-missing data);
* raising an exception is modelled by `Except.error`.
-/

inductive Val where
  | num (q : ℚ)
  | str (s : String)
deriving DecidableEq

def Val.toQ : Val → Option ℚ
  | .num q => some q
  | .str _ => none

/-- Display a value inside a Python f-string (numeric formatting abstracted). -/
def Val.show : Val → String
  | .num q => toString q
  | .str s => s

abbrev Cell := Option Val

def Cell.toQ (c : Cell) : Option ℚ := c.bind Val.toQ

/-- A pandas DataFrame: a row count and named columns (cells are `Option Val`). -/
structure Table where
  nrows : Nat
  cols : List (String × List Cell)
deriving DecidableEq

/-- Look a column up by name (first occurrence). -/
def lookupCol : List (String × List Cell) → String → Option (List Cell)
  | [], _ => none
  | p :: ps, n => if p.1 = n then some p.2 else lookupCol ps n

/-- Column assignment `df[n] = c`: overwrite in place, or append a new column. -/
def updateCol : List (String × List Cell) → String → List Cell → List (String × List Cell)
  | [], n, c => [(n, c)]
  | p :: ps, n, c => if p.1 = n then (n, c) :: ps else p :: updateCol ps n c

def Table.getCol (t : Table) (n : String) : Option (List Cell) :=
  lookupCol t.cols n

def Table.hasCol (t : Table) (n : String) : Bool :=
  (t.getCol n).isSome

def Table.setCol (t : Table) (n : String) (c : List Cell) : Table :=
  { t with cols := updateCol t.cols n c }

/-- The cell of column `n` at row `i` (missing column or row ⇒ NaN). -/
def Table.cellAt (t : Table) (n : String) (i : Nat) : Cell :=
  ((t.getCol n).getD []).getD i none

/-!  `utils/metrics.py` — the Metrics Engine, `compute_metrics`.  -/

def costCols : List String :=
  ["Fuel_Cost_INR", "Labor_Cost_INR", "Maintenance_Cost_INR", "Toll_Charges_INR"]

/-- Models `if c not in df.columns: df[c] = 0.0` (broadcast scalar assignment). -/
def ensureZeroCol (t : Table) (c : String) : Table :=
  if t.hasCol c then t else t.setCol c (List.replicate t.nrows (some (Val.num 0)))

/-- Models `if c not in df.columns: df[c] = np.nan`. -/
def ensureNaNCol (t : Table) (c : String) : Table :=
  if t.hasCol c then t else t.setCol c (List.replicate t.nrows none)

/-- Models `df[cost_cols].sum(axis=1)` at row `i`: row-wise sum, NaN treated as 0. -/
def sumCosts (t : Table) (i : Nat) : ℚ :=
  costCols.foldl (fun a c => a + ((t.cellAt c i).toQ.getD 0)) 0

def totalCostCol (t : Table) : List Cell :=
  (List.range t.nrows).map (fun i => some (Val.num (sumCosts t i)))

/-- Models `np.where((dist > 0) & dist.notna(), fuel / dist, np.nan)` at each row. -/
def fuelPerKMCol (t : Table) : List Cell :=
  (List.range t.nrows).map (fun i =>
    match (t.cellAt "Distance_KM" i).toQ with
    | some d =>
        if 0 < d then ((t.cellAt "Fuel_Consumption_L" i).toQ).map (fun f => Val.num (f / d))
        else none
    | none => none)

/-- Models `df["Traffic_Delay_Minutes"] / 60.0` at each row (NaN propagates). -/
def delayIndexCol (t : Table) : List Cell :=
  (List.range t.nrows).map (fun i =>
    ((t.cellAt "Traffic_Delay_Minutes" i).toQ).map (fun q => Val.num (q / 60)))

/-- One step of a skipna maximum (missing values are passed over). -/
def maxStep (acc c : Option ℚ) : Option ℚ :=
  match acc, c with
  | none, c => c
  | some a, none => some a
  | some a, some b => some (max a b)

/-- pandas `Series.max()` with skipna: `none` iff no non-missing value. -/
def pandasMax (l : List (Option ℚ)) : Option ℚ :=
  l.foldl maxStep none

/-- Models `max_delay = df["Delay_Index"].max() if not df["Delay_Index"].empty else 0.0`
followed by `denom = max(max_delay, 0.1)`; Python `max(nan, 0.1)` is nan, so a
missing `max_delay` makes the denominator (and every score) missing. -/
def reliabilityDenom (t : Table) : Option ℚ :=
  (if ((t.getCol "Delay_Index").getD []).isEmpty then some 0
   else pandasMax (((t.getCol "Delay_Index").getD []).map Cell.toQ)).map
    (fun m => max m (1/10))

/-- Models `1.0 - df["Delay_Index"] / denom` at each row. -/
def reliabilityCol (t : Table) : List Cell :=
  (List.range t.nrows).map (fun i =>
    match (t.cellAt "Delay_Index" i).toQ, reliabilityDenom t with
    | some d, some dn => some (Val.num (1 - d / dn))
    | _, _ => none)

/- The successive states of the mutated `df` in `compute_metrics`. -/

def dfCost (t : Table) : Table := costCols.foldl ensureZeroCol t

def dfTotal (t : Table) : Table :=
  (dfCost t).setCol "Total_Cost_INR" (totalCostCol (dfCost t))

def dfFuelSrc (t : Table) : Table :=
  ensureNaNCol (ensureNaNCol (dfTotal t) "Fuel_Consumption_L") "Distance_KM"

def dfFpk (t : Table) : Table :=
  (dfFuelSrc t).setCol "Fuel_per_KM" (fuelPerKMCol (dfFuelSrc t))

def dfDelay (t : Table) : Table := ensureZeroCol (dfFpk t) "Traffic_Delay_Minutes"

def dfDelayIdx (t : Table) : Table :=
  (dfDelay t).setCol "Delay_Index" (delayIndexCol (dfDelay t))

/-- Models `compute_metrics` from `utils/metrics.py` (warnings are side effects, not modelled). -/
def compute_metrics (t : Table) : Table :=
  (dfDelayIdx t).setCol "Reliability_Score" (reliabilityCol (dfDelayIdx t))

/-!  `utils/data_processing.py` — the Dataset Merger.  -/

/-- The filesystem under `DATA_DIR`: which CSV files exist and their contents. -/
def DataFS := String → Option Table

/-- Path `DATA_DIR` (`.../data`) abstracted to the relative path prefix. -/
def dataPath (name : String) : String := "data/" ++ name

/-- Models `_read_csv`: `FileNotFoundError` when the file is absent, its table otherwise. -/
def read_csv (fs : DataFS) (name : String) : Except String Table :=
  match fs name with
  | none => .error ("Required data file not found: " ++ dataPath name)
  | some t => .ok t

/-- Models `pandas.merge(..., on=key, how="left")`: every left row paired with each
matching right row, or with an all-missing right row when nothing matches;
overlapping non-key column names get the `_x`/`_y` suffixes. -/
def mergeLeft (l r : Table) (key : String) : Table :=
  let rKey := (r.getCol key).getD []
  let pairs : List (Nat × Option Nat) :=
    (List.range l.nrows).flatMap (fun i =>
      let kc := l.cellAt key i
      let js := (List.range r.nrows).filter (fun j => rKey.getD j none = kc)
      if js.isEmpty then [(i, none)] else js.map (fun j => (i, some j)))
  let lcols := l.cols.map (fun p =>
    ((if p.1 ≠ key ∧ r.hasCol p.1 then p.1 ++ "_x" else p.1),
     pairs.map (fun pr => p.2.getD pr.1 none)))
  let rcols := (r.cols.filter (fun p => p.1 ≠ key)).map (fun p =>
    ((if l.hasCol p.1 then p.1 ++ "_y" else p.1),
     pairs.map (fun pr =>
       match pr.2 with
       | some j => p.2.getD j none
       | none => none)))
  { nrows := pairs.length, cols := lcols ++ rcols }

/-- Models `Series.fillna(v)` on one column (filling with NaN is a no-op). -/
def fillNaCol (t : Table) (c : String) (v : Cell) : Table :=
  match t.getCol c with
  | none => t
  | some col => t.setCol c (col.map (fun cell => match cell with | none => v | s => s))

/-- Models `Series.mean()` with skipna: `none` (NaN) when no numeric value exists. -/
def meanCol (t : Table) (c : String) : Option ℚ :=
  let qs := ((t.getCol c).getD []).filterMap Cell.toQ
  if qs.isEmpty then none else some (qs.sum / qs.length)

/-- The conditional `defaults` dict plus `merged.fillna(defaults)`. -/
def fillDefaults (m : Table) : Table :=
  let m1 := if m.hasCol "Traffic_Delay_Minutes" then
      fillNaCol m "Traffic_Delay_Minutes" (some (Val.num 0)) else m
  let m2 := if m1.hasCol "Weather_Impact" then
      fillNaCol m1 "Weather_Impact" (some (Val.str "None")) else m1
  let m3 := if m2.hasCol "Fuel_Consumption_L" then
      fillNaCol m2 "Fuel_Consumption_L" ((meanCol m2 "Fuel_Consumption_L").map Val.num) else m2
  if m3.hasCol "Toll_Charges_INR" then
      fillNaCol m3 "Toll_Charges_INR" (some (Val.num 0)) else m3

/-- The five data files read by `load_and_merge_data`, in read order. -/
def requiredFiles : List String :=
  ["orders.csv", "delivery_performance.csv", "routes_distance.csv",
   "cost_breakdown.csv", "vehicle_fleet.csv"]

/-- Models `load_and_merge_data` from `utils/data_processing.py`. -/
def load_and_merge_data (fs : DataFS) : Except String Table :=
  match read_csv fs "orders.csv" with
  | .error e => .error e
  | .ok orders =>
    match read_csv fs "delivery_performance.csv" with
    | .error e => .error e
    | .ok delivery =>
      match read_csv fs "routes_distance.csv" with
      | .error e => .error e
      | .ok routes =>
        match read_csv fs "cost_breakdown.csv" with
        | .error e => .error e
        | .ok costs =>
          match read_csv fs "vehicle_fleet.csv" with
          | .error e => .error e
          | .ok _fleet =>
            let merged :=
              mergeLeft (mergeLeft (mergeLeft orders delivery "Order_ID")
                routes "Order_ID") costs "Order_ID"
            .ok (fillDefaults merged)

/-!  `predictor.py` — `DummyModel` and `PredictWrapper`.  -/

/-- An argument to `DummyModel.predict`: a matrix has a `len`, a scalar does not. -/
inductive PredInput where
  | mat (m : List (List Val))
  | scalar (v : Val)

/-- Models `len(X)` — `none` models the `TypeError` branch of the `try`. -/
def rowCount : PredInput → Option Nat
  | .mat m => some m.length
  | .scalar _ => none

/-- Models `DummyModel.predict`: `np.zeros(len(X))`, or `[0.0]` when `len` fails. -/
def dummyPredict (x : PredInput) : List ℚ :=
  match rowCount x with
  | some n => List.replicate n 0
  | none => [0]

def defaultFeatures : List String :=
  ["Distance_KM", "Fuel_per_KM", "Weather_Impact_Num", "Total_Cost_INR"]

/-- Models `Series.replace(0, 1)` cell-wise: an exact numeric 0 becomes 1. -/
def replaceZeroOne (c : Cell) : Cell :=
  if c = some (Val.num 0) then some (Val.num 1) else c

/-- Cell-wise `fuel / dist`: NaN propagates.  After `replace(0, 1)` the divisor is
never the rational 0, so rational division is exact here (IEEE inf unreachable). -/
def divCell (f d : Cell) : Cell :=
  match f.toQ, d.toQ with
  | some x, some y => some (Val.num (x / y))
  | _, _ => none

/-- The first statement of `PredictWrapper._preprocess`:
`if "Fuel_per_KM" not in X.columns and "Fuel_Consumption_L" in X.columns:
   X["Fuel_per_KM"] = X["Fuel_Consumption_L"] / X["Distance_KM"].replace(0, 1)`.
Reading `X["Distance_KM"]` on a table without that column raises `KeyError`. -/
def deriveFuelPerKM (X : Table) : Except String Table :=
  if X.hasCol "Fuel_per_KM" = false ∧ X.hasCol "Fuel_Consumption_L" = true then
    match X.getCol "Distance_KM" with
    | none => .error "KeyError: Distance_KM"
    | some dcol =>
      let fcol := (X.getCol "Fuel_Consumption_L").getD []
      .ok (X.setCol "Fuel_per_KM"
        ((List.range X.nrows).map (fun i =>
          divCell (fcol.getD i none) (replaceZeroOne (dcol.getD i none)))))
  else .ok X

/-- The fixed `weather_map` dict. -/
def weatherMapQ (s : String) : Option ℚ :=
  if s = "None" then some 0
  else if s = "Light_Rain" then some 1
  else if s = "Heavy_Rain" then some 2
  else if s = "Fog" then some 3
  else none

/-- Models `X["Weather_Impact"].map(weather_map).fillna(0)` cell-wise: an unmapped label,
a numeric cell, or NaN all end up as the code 0. -/
def weatherCode (c : Cell) : Cell :=
  some (Val.num (match c with
    | some (Val.str s) => (weatherMapQ s).getD 0
    | _ => 0))

/-- The weather branch of `_preprocess`. -/
def weatherStage (X : Table) : Table :=
  if X.hasCol "Weather_Impact" then
    X.setCol "Weather_Impact_Num" (((X.getCol "Weather_Impact").getD []).map weatherCode)
  else if X.hasCol "Weather_Impact_Num" = false then
    X.setCol "Weather_Impact_Num" (List.replicate X.nrows (some (Val.num 0)))
  else X

/-- Models `for f in self.features: if f not in X.columns: X[f] = 0`. -/
def ensureFeatures (fs : List String) (t : Table) : Table :=
  fs.foldl (fun a f =>
    if a.hasCol f then a else a.setCol f (List.replicate a.nrows (some (Val.num 0)))) t

/-- Models `X[self.features].fillna(0).values`: one dense row per table row. -/
def valuesMatrix (t : Table) (fs : List String) : List (List Val) :=
  (List.range t.nrows).map (fun i => fs.map (fun f => (t.cellAt f i).getD (Val.num 0)))

/-- Models `PredictWrapper._preprocess`. -/
def preprocess (features : List String) (df : Table) : Except String (List (List Val)) :=
  match deriveFuelPerKM df with
  | .error e => .error e
  | .ok X => .ok (valuesMatrix (ensureFeatures features (weatherStage X)) features)

/-- An argument to `PredictWrapper.predict`: a DataFrame, or anything else
(passed through `np.array`). -/
inductive WrapInput where
  | table (t : Table)
  | raw (p : PredInput)

structure PredictWrapper where
  model : PredInput → List ℚ
  features : List String

/-- Models `PredictWrapper.predict`. -/
def PredictWrapper.predict (w : PredictWrapper) : WrapInput → Except String (List ℚ)
  | .table t =>
    match preprocess w.features t with
    | .error e => .error e
    | .ok M => .ok (w.model (.mat M))
  | .raw p => .ok (w.model p)

/-- The stub fallback returned by `load_model` when training is impossible. -/
def dummyWrapper : PredictWrapper :=
  { model := dummyPredict, features := defaultFeatures }

/-!  `main.py` — `estimate_impact` and `generate_corrective_actions`.
A model is abstracted as a fallible prediction function on tables, which is
what `model.predict` provides at these call sites.  -/

def Model := Table → Except String (List ℚ)

/-- One entry of the `changes` dict: a literal replacement value, or the
`("mul", factor)` multiplicative directive. -/
inductive Change where
  | set (v : Val)
  | mul (factor : ℚ)

/-- Multiply a cell by a scalar (NaN propagates; non-numeric cells, on which
pandas would raise, are treated as missing). -/
def mulCell (f : ℚ) (c : Cell) : Cell :=
  (c.toQ).map (fun q => Val.num (q * f))

/-- One iteration of the loop over `changes.items()`. -/
def applyChange (t : Table) (kv : String × Change) : Table :=
  match kv.2 with
  | .mul f =>
      if t.hasCol kv.1 then t.setCol kv.1 (((t.getCol kv.1).getD []).map (mulCell f))
      else t
  | .set v => t.setCol kv.1 (List.replicate t.nrows (some v))

/-- Models `inp = base_input.copy()` followed by the whole loop (dict iteration is
in insertion order, hence a list of pairs). -/
def applyChanges (base : Table) (changes : List (String × Change)) : Table :=
  changes.foldl applyChange base

/-- Models `xs[0]` on a prediction array: `IndexError` when it is empty. -/
def headPred (l : List ℚ) : Except String ℚ :=
  match l with
  | [] => .error "IndexError: index 0 is out of bounds"
  | x :: _ => .ok x

/-- Models `estimate_impact(model, base_input, changes)` from `main.py`. -/
def estimate_impact (model : Model) (base : Table) (changes : List (String × Change)) :
    Except String ℚ :=
  let inp := applyChanges base changes
  let basePredE : Except String ℚ :=
    if base.nrows = 0 then .ok 0
    else match model base with
      | .error e => .error e
      | .ok ps => headPred ps
  match basePredE with
  | .error e => .error e
  | .ok basePred =>
    let newPredE : Except String ℚ :=
      if inp.nrows = 0 then .ok 0
      else match model inp with
        | .error e => .error e
        | .ok ps => headPred ps
    match newPredE with
    | .error e => .error e
    | .ok newPred => .ok (max 0 (basePred - newPred))

/-- One corrective action (`est_delay_reduction_min` keeps the rounded value). -/
structure CAction where
  title : String
  priority : Nat
  est_delay_reduction_min : ℚ
  est_cost_change : String
  details : Option String
deriving DecidableEq

/-- Python `round(x, 1)` modelled on exact rationals: nearest multiple of
1/10, ties to even. -/
def round1 (q : ℚ) : ℚ :=
  let r := q * 10
  let f : ℤ := ⌊r⌋
  let n : ℤ :=
    if r - f < 1/2 then f
    else if (1:ℚ)/2 < r - f then f + 1
    else if 2 ∣ f then f else f + 1
  (n : ℚ) / 10

/-- Models `int(x)` on a float: truncation toward zero. -/
def pyTrunc (q : ℚ) : ℤ := q.num.tdiv q.den

/-- The distinct non-missing group keys of a column, in first-occurrence order
(pandas `groupby` drops NaN keys; its key ordering is irrelevant here since the
result is re-sorted by mean and only membership matters for the claims). -/
def dedupKeys (l : List Cell) : List Val :=
  l.foldl (fun acc c =>
    match c with
    | some v => if v ∈ acc then acc else acc ++ [v]
    | none => acc) []

/-- The skipna mean of `valCol` over the rows whose `keyCol` cell equals `k`. -/
def groupMean (keyCol valCol : List Cell) (k : Val) : Option ℚ :=
  let vals := (List.range keyCol.length).filterMap (fun i =>
    if keyCol.getD i none = some k then (valCol.getD i none).bind Val.toQ else none)
  if vals.isEmpty then none else some (vals.sum / vals.length)

/-- Comparison by mean descending with NaN ordered last, as `sort_values(ascending=False)` does. -/
def meanDescLE (a b : Val × Option ℚ) : Bool :=
  match a.2, b.2 with
  | some x, some y => y ≤ x
  | some _, none => true
  | none, some _ => false
  | none, none => true

/-- Stable insertion into a list sorted by `le`. -/
def insertLE {α : Type _} (le : α → α → Bool) (a : α) : List α → List α
  | [] => [a]
  | b :: bs => if le a b then a :: b :: bs else b :: insertLE le a bs

/-- Stable insertion sort; models Python's stable `sorted` (and, for
`sort_values`, an unspecified-tie-order sort: ties are kept stable here). -/
def sortByLE {α : Type _} (le : α → α → Bool) : List α → List α
  | [] => []
  | a :: as_ => insertLE le a (sortByLE le as_)

/-- Models `sorted(actions, key=lambda x: x.get("priority", 99))`. -/
def sortByPriority (l : List CAction) : List CAction :=
  sortByLE (fun a b => a.priority ≤ b.priority) l

/-- Models `df.groupby(route_col)["Traffic_Delay_Minutes"].mean().sort_values(ascending=False)`
as a list of (key, mean) pairs. -/
def sortedGroups (keyCol valCol : List Cell) : List (Val × Option ℚ) :=
  sortByLE meanDescLE ((dedupKeys keyCol).map (fun k => (k, groupMean keyCol valCol k)))

def reRouteDetails : String :=
  "Use historical congestion and distance data to pick alternate paths that " ++
  "reduce distance or avoid peak traffic. Prioritize high-delay routes for " ++
  "immediate re-routing."

def coachingDetails : String :=
  "Coach drivers on eco-driving, optimize loads, and perform vehicle " ++
  "maintenance to improve fuel efficiency."

/-- The prompt assembled for the crew. -/
def crewPrompt (actions : List CAction) : String :=
  "You are an operations expert. Given these suggested actions: \n" ++
  String.intercalate "\n" (actions.map (fun a =>
    "- " ++ a.title ++ " (est_reduce=" ++ toString a.est_delay_reduction_min ++ "m)")) ++
  "\nProvide a concise 2-3 step execution plan for the top 2 actions and state which to do first."

/-- Models `base_input.get("Weather_Impact_Num", pd.Series([0]))[0]` followed by `int(...)`:
position 0 of the column (or of the one-element default series), truncated;
`int(nan)` and `int` of a non-numeric string raise. -/
def weatherBaseInt (base : Table) : Except String ℤ :=
  let cellE : Except String Cell :=
    if base.hasCol "Weather_Impact_Num" then
      match ((base.getCol "Weather_Impact_Num").getD []).head? with
      | some c => .ok c
      | none => .error "KeyError: 0"
    else .ok (some (Val.num 0))
  match cellE with
  | .error e => .error e
  | .ok c =>
    match c with
    | some (Val.num q) => .ok (pyTrunc q)
    | some (Val.str _) => .error "ValueError: invalid literal for int"
    | none => .error "ValueError: cannot convert float NaN to integer"

/-- Models `generate_corrective_actions(df, model, base_input, crew)` from `main.py`.
The crew collaborator is `none` when falsy; its `run` may fail, which is
swallowed.  Streamlit rendering is outside the model. -/
def generate_corrective_actions (df : Table) (model : Model) (base : Table)
    (crew : Option (String → Except String String)) : Except String (List CAction) :=
  let routeCol := if df.hasCol "Route" then "Route" else "Order_ID"
  match df.getCol routeCol with
  | none => .error "KeyError: groupby column"
  | some keyCol =>
    match df.getCol "Traffic_Delay_Minutes" with
    | none => .error "KeyError: Traffic_Delay_Minutes"
    | some valCol =>
      let groups := sortedGroups keyCol valCol
      let actions1E : Except String (List CAction) :=
        match groups.head? with
        | some (k, _) =>
          match estimate_impact model base [("Distance_KM", Change.mul (9/10))] with
          | .error e => .error e
          | .ok e1 => .ok
              [{ title := "Re-route deliveries currently on Route " ++ k.show ++
                   " to shorter/less-congested alternatives",
                 priority := 1,
                 est_delay_reduction_min := round1 e1,
                 est_cost_change := "±small",
                 details := some reRouteDetails }]
        | none => .ok []
      match actions1E with
      | .error e => .error e
      | .ok actions1 =>
        match weatherBaseInt base with
        | .error e => .error e
        | .ok w =>
          match estimate_impact model base
              [("Weather_Impact_Num", Change.set (Val.num ((max 0 (w - 1) : ℤ) : ℚ)))] with
          | .error e => .error e
          | .ok e2 =>
            let a2 : CAction :=
              { title := "Shift departure times earlier for weather/peak-hour avoidance",
                priority := 2,
                est_delay_reduction_min := round1 e2,
                est_cost_change := "small",
                details := none }
            match estimate_impact model base [("Fuel_per_KM", Change.mul (85/100))] with
            | .error e => .error e
            | .ok e3 =>
              let a3 : CAction :=
                { title := "Driver coaching and load optimization to reduce fuel per km",
                  priority := 3,
                  est_delay_reduction_min := round1 e3,
                  est_cost_change := "reduces fuel costs",
                  details := some coachingDetails }
              let actions := actions1 ++ [a2] ++ [a3]
              let actions :=
                match crew with
                | none => actions
                | some run =>
                  match run (crewPrompt actions) with
                  | .error _ => actions
                  | .ok txt =>
                    match actions with
                    | [] => []
                    | a :: rest =>
                      let d := (a.details.getD "") ++ "\n\nCrew suggestion:\n" ++ txt
                      { a with details := some d } :: rest
              .ok (sortByPriority actions)

/-!  Concrete inputs used by counterexamples and witnesses.  -/

def c1CounterTable : Table :=
  ⟨1, [("Traffic_Delay_Minutes", [some (Val.num (-60))])]⟩

def c1WitnessTable : Table :=
  ⟨1, [("Traffic_Delay_Minutes", [some (Val.num 0)])]⟩

def c2WitnessTable : Table :=
  ⟨1, [("Distance_KM", [some (Val.num 0)]), ("Fuel_Consumption_L", [some (Val.num 10)])]⟩

def c5WitnessTable : Table :=
  ⟨1, [("Fuel_Cost_INR", [some (Val.num 100)]), ("Labor_Cost_INR", [some (Val.num 50)]),
       ("Toll_Charges_INR", [some (Val.num 20)])]⟩

def c8WitnessTable : Table :=
  ⟨1, [("Fuel_Consumption_L", [some (Val.num 7)]), ("Distance_KM", [some (Val.num 0)])]⟩

def c3FailingTable : Table :=
  ⟨1, [("Fuel_Consumption_L", [some (Val.num 5)])]⟩

def c6WitnessTable : Table :=
  ⟨2, [("Distance_KM", [some (Val.num 10), some (Val.num 4)]),
       ("Fuel_per_KM", [some (Val.num 2), none]),
       ("Total_Cost_INR", [some (Val.num 5), some (Val.num 6)])]⟩

def c6WitnessMatrix : List (List Val) :=
  (preprocess defaultFeatures c6WitnessTable).toOption.getD []

def c4Model : Model := fun t => .ok [if t.hasCol "X" then (5:ℚ) else 2]

def c4Base : Table := ⟨1, [("Distance_KM", [some (Val.num 100)])]⟩

def c10WitnessBase : Table :=
  ⟨1, [("Distance_KM", [some (Val.num 100)])]⟩

def c9Df : Table :=
  ⟨1, [("Order_ID", [some (Val.str "A")]),
       ("Traffic_Delay_Minutes", [some (Val.num 30)])]⟩

def c9Model : Model := fun _ => .ok [0]

def c9Base : Table := ⟨1, [("Weather_Impact_Num", [some (Val.num 2)])]⟩

def c9Acts : List CAction :=
  (generate_corrective_actions c9Df c9Model c9Base none).toOption.getD []

def c7WitnessFS : DataFS := fun n =>
  if n = "vehicle_fleet.csv" then none
  else some ⟨1, [("Order_ID", [some (Val.str "A")])]⟩

/-!  Basic lemmas about the table model.  -/

theorem lookupCol_updateCol_self (l : List (String × List Cell)) (n : String) (c : List Cell) :
    lookupCol (updateCol l n c) n = some c := by
  induction l with
  | nil => simp [updateCol, lookupCol]
  | cons p ps ih =>
    by_cases h : p.1 = n
    · simp [updateCol, lookupCol, h]
    · simp [updateCol, lookupCol, h, ih]

theorem lookupCol_updateCol_ne (l : List (String × List Cell)) (n m : String) (c : List Cell)
    (h : m ≠ n) : lookupCol (updateCol l n c) m = lookupCol l m := by
  induction l with
  | nil => simp [updateCol, lookupCol, Ne.symm h]
  | cons p ps ih =>
    by_cases hp : p.1 = n
    · simp [updateCol, lookupCol, hp, Ne.symm h]
    · simp only [updateCol, if_neg hp, lookupCol]
      by_cases hm : p.1 = m <;> simp [hm, ih]

theorem getCol_setCol_self (t : Table) (n : String) (c : List Cell) :
    (t.setCol n c).getCol n = some c :=
  lookupCol_updateCol_self t.cols n c

theorem getCol_setCol_ne (t : Table) (n m : String) (c : List Cell) (h : m ≠ n) :
    (t.setCol n c).getCol m = t.getCol m :=
  lookupCol_updateCol_ne t.cols n m c h

theorem nrows_setCol (t : Table) (n : String) (c : List Cell) :
    (t.setCol n c).nrows = t.nrows := rfl

theorem hasCol_setCol_self (t : Table) (n : String) (c : List Cell) :
    (t.setCol n c).hasCol n = true := by
  simp [Table.hasCol, getCol_setCol_self]

theorem hasCol_setCol_ne (t : Table) (n m : String) (c : List Cell) (h : m ≠ n) :
    (t.setCol n c).hasCol m = t.hasCol m := by
  simp [Table.hasCol, getCol_setCol_ne t n m c h]

theorem cellAt_setCol_self (t : Table) (n : String) (c : List Cell) (i : Nat) :
    (t.setCol n c).cellAt n i = c.getD i none := by
  simp [Table.cellAt, getCol_setCol_self]

theorem cellAt_setCol_ne (t : Table) (n m : String) (c : List Cell) (i : Nat) (h : m ≠ n) :
    (t.setCol n c).cellAt m i = t.cellAt m i := by
  simp [Table.cellAt, getCol_setCol_ne t n m c h]

theorem cellAt_of_not_hasCol (t : Table) (m : String) (i : Nat) (h : t.hasCol m = false) :
    t.cellAt m i = none := by
  unfold Table.hasCol at h
  cases hg : t.getCol m with
  | none => simp [Table.cellAt, hg]
  | some col => rw [hg] at h; simp at h

theorem getD_range_map {α : Type _} (g : Nat → α) (n i : Nat) (d : α) :
    (((List.range n).map g).getD i d) = if i < n then g i else d := by
  rcases Nat.lt_or_ge i n with h | h
  · rw [List.getD_eq_getElem?_getD]
    simp [List.getElem?_map, List.getElem?_range h, h]
  · rw [List.getD_eq_getElem?_getD, List.getElem?_eq_none]
    · simp [Nat.not_lt_of_ge h]
    · simpa using h

theorem getD_replicate {α : Type _} (a : α) (n i : Nat) (d : α) :
    ((List.replicate n a).getD i d) = if i < n then a else d := by
  rcases Nat.lt_or_ge i n with h | h
  · rw [List.getD_eq_getElem?_getD]
    simp [List.getElem?_replicate, h]
  · rw [List.getD_eq_getElem?_getD, List.getElem?_eq_none]
    · simp [Nat.not_lt_of_ge h]
    · simpa using h

theorem nrows_ensureZeroCol (t : Table) (c : String) :
    (ensureZeroCol t c).nrows = t.nrows := by
  unfold ensureZeroCol; split <;> rfl

theorem nrows_ensureNaNCol (t : Table) (c : String) :
    (ensureNaNCol t c).nrows = t.nrows := by
  unfold ensureNaNCol; split <;> rfl

theorem getCol_ensureZeroCol_ne (t : Table) (c m : String) (h : m ≠ c) :
    (ensureZeroCol t c).getCol m = t.getCol m := by
  unfold ensureZeroCol; split
  · rfl
  · exact getCol_setCol_ne t c m _ h

theorem getCol_ensureNaNCol_ne (t : Table) (c m : String) (h : m ≠ c) :
    (ensureNaNCol t c).getCol m = t.getCol m := by
  unfold ensureNaNCol; split
  · rfl
  · exact getCol_setCol_ne t c m _ h

theorem cellAt_ensureZeroCol_ne (t : Table) (c m : String) (i : Nat) (h : m ≠ c) :
    (ensureZeroCol t c).cellAt m i = t.cellAt m i := by
  simp [Table.cellAt, getCol_ensureZeroCol_ne t c m h]

theorem cellAt_ensureNaNCol_ne (t : Table) (c m : String) (i : Nat) (h : m ≠ c) :
    (ensureNaNCol t c).cellAt m i = t.cellAt m i := by
  simp [Table.cellAt, getCol_ensureNaNCol_ne t c m h]

/-- After `ensureZeroCol`, a cell read as "NaN counts as 0" is unchanged
(an absent column became literal zeros). -/
theorem toQD_cellAt_ensureZeroCol (t : Table) (c : String) (i : Nat) (hi : i < t.nrows) :
    ((ensureZeroCol t c).cellAt c i).toQ.getD 0 = (t.cellAt c i).toQ.getD 0 := by
  unfold ensureZeroCol; split
  · rfl
  · next h =>
    rw [cellAt_setCol_self, getD_replicate, if_pos hi,
      cellAt_of_not_hasCol t c i (by simpa using h)]
    rfl

/-- Lemma: `ensureNaNCol` never changes what a cell's numeric reading is. -/
theorem toQ_cellAt_ensureNaNCol (t : Table) (c : String) (i : Nat) :
    ((ensureNaNCol t c).cellAt c i).toQ = (t.cellAt c i).toQ := by
  unfold ensureNaNCol; split
  · rfl
  · next h =>
    rw [cellAt_setCol_self, getD_replicate,
      cellAt_of_not_hasCol t c i (by simpa using h)]
    split <;> rfl

theorem toQ_map_num (o : Option ℚ) (f : ℚ → ℚ) :
    Cell.toQ (o.map (fun q => Val.num (f q))) = o.map f := by
  cases o <;> rfl

/-!  Lemmas about the intermediate states of `compute_metrics`.  -/

theorem dfCost_eq (t : Table) :
    dfCost t = ensureZeroCol (ensureZeroCol (ensureZeroCol (ensureZeroCol t
      "Fuel_Cost_INR") "Labor_Cost_INR") "Maintenance_Cost_INR") "Toll_Charges_INR" := rfl

theorem nrows_dfCost (t : Table) : (dfCost t).nrows = t.nrows := by
  rw [dfCost_eq, nrows_ensureZeroCol, nrows_ensureZeroCol, nrows_ensureZeroCol,
    nrows_ensureZeroCol]

theorem nrows_dfTotal (t : Table) : (dfTotal t).nrows = t.nrows := by
  rw [dfTotal, nrows_setCol, nrows_dfCost]

theorem nrows_dfFuelSrc (t : Table) : (dfFuelSrc t).nrows = t.nrows := by
  rw [dfFuelSrc, nrows_ensureNaNCol, nrows_ensureNaNCol, nrows_dfTotal]

theorem nrows_dfFpk (t : Table) : (dfFpk t).nrows = t.nrows := by
  rw [dfFpk, nrows_setCol, nrows_dfFuelSrc]

theorem nrows_dfDelay (t : Table) : (dfDelay t).nrows = t.nrows := by
  rw [dfDelay, nrows_ensureZeroCol, nrows_dfFpk]

theorem nrows_dfDelayIdx (t : Table) : (dfDelayIdx t).nrows = t.nrows := by
  rw [dfDelayIdx, nrows_setCol, nrows_dfDelay]

theorem getCol_dfCost_ne (t : Table) (m : String) (h : m ∉ costCols) :
    (dfCost t).getCol m = t.getCol m := by
  simp only [costCols, List.mem_cons, List.mem_singleton, not_or] at h
  rw [dfCost_eq, getCol_ensureZeroCol_ne _ _ _ h.2.2.2.1,
    getCol_ensureZeroCol_ne _ _ _ h.2.2.1, getCol_ensureZeroCol_ne _ _ _ h.2.1,
    getCol_ensureZeroCol_ne _ _ _ h.1]

theorem getCol_dfFpk_delay (t : Table) :
    (dfFpk t).getCol "Traffic_Delay_Minutes" = t.getCol "Traffic_Delay_Minutes" := by
  rw [dfFpk, getCol_setCol_ne _ _ _ _ (by decide), dfFuelSrc,
    getCol_ensureNaNCol_ne _ _ _ (by decide), getCol_ensureNaNCol_ne _ _ _ (by decide),
    dfTotal, getCol_setCol_ne _ _ _ _ (by decide), getCol_dfCost_ne _ _ (by decide)]

theorem cellAt_dfFpk_delay (t : Table) (i : Nat) :
    (dfFpk t).cellAt "Traffic_Delay_Minutes" i = t.cellAt "Traffic_Delay_Minutes" i := by
  simp [Table.cellAt, getCol_dfFpk_delay]

/-- The delay cell actually used by `Delay_Index`: either the original cell or a
synthesized zero; its numeric reading stays non-negative if the original ones are. -/
theorem delay_nonneg_preserved (t : Table) (i : Nat)
    (hpos : ∀ j : Nat, j < t.nrows → 0 ≤ ((t.cellAt "Traffic_Delay_Minutes" j).toQ.getD 0))
    (q : ℚ) (hq : ((dfDelay t).cellAt "Traffic_Delay_Minutes" i).toQ = some q)
    (hi : i < t.nrows) : 0 ≤ q := by
  rw [dfDelay] at hq
  unfold ensureZeroCol at hq
  split at hq
  · rw [cellAt_dfFpk_delay] at hq
    have := hpos i hi
    rw [hq] at this
    simpa using this
  · rw [cellAt_setCol_self, getD_replicate, nrows_dfFpk, if_pos hi] at hq
    simp only [Cell.toQ, Option.bind, Val.toQ] at hq
    cases hq
    norm_num

theorem reliabilityDenom_pos (t : Table) (dn : ℚ) (h : reliabilityDenom t = some dn) :
    0 < dn := by
  unfold reliabilityDenom at h
  simp only [Option.map_eq_some'] at h
  obtain ⟨m, -, hm⟩ := h
  rw [← hm]
  calc (0:ℚ) < 1/10 := by norm_num
  _ ≤ max m (1/10) := le_max_right _ _

theorem foldl_maxStep_zero (l : List (Option ℚ)) (h : ∀ x ∈ l, x = some 0) :
    l.foldl maxStep (some 0) = some 0 := by
  induction l with
  | nil => rfl
  | cons a as ih =>
    have ha : a = some 0 := h a (List.mem_cons_self a as)
    rw [List.foldl_cons, ha]
    have : maxStep (some 0) (some 0) = some 0 := by simp [maxStep]
    rw [this]
    exact ih (fun x hx => h x (List.mem_cons_of_mem a hx))

theorem pandasMax_all_zero (l : List (Option ℚ)) (hne : l ≠ []) (h : ∀ x ∈ l, x = some 0) :
    pandasMax l = some 0 := by
  cases l with
  | nil => exact absurd rfl hne
  | cons a as =>
    have ha : a = some 0 := h a (List.mem_cons_self a as)
    unfold pandasMax
    rw [List.foldl_cons, ha]
    exact foldl_maxStep_zero as (fun x hx => h x (List.mem_cons_of_mem a hx))

/-- With an all-zero delay column, the cell actually divided by 60 reads as 0. -/
theorem delayCell_toQ_zero (t : Table)
    (hz : ∀ j : Nat, j < t.nrows → t.cellAt "Traffic_Delay_Minutes" j = some (Val.num 0))
    (j : Nat) (hj : j < t.nrows) :
    ((dfDelay t).cellAt "Traffic_Delay_Minutes" j).toQ = some 0 := by
  rw [dfDelay]; unfold ensureZeroCol; split
  · rw [cellAt_dfFpk_delay, hz j hj]; rfl
  · rw [cellAt_setCol_self, getD_replicate, nrows_dfFpk, if_pos hj]; rfl

theorem delayIdx_cell_zero (t : Table)
    (hz : ∀ j : Nat, j < t.nrows → t.cellAt "Traffic_Delay_Minutes" j = some (Val.num 0))
    (i : Nat) (hi : i < t.nrows) :
    (dfDelayIdx t).cellAt "Delay_Index" i = some (Val.num 0) := by
  rw [dfDelayIdx, cellAt_setCol_self, delayIndexCol, getD_range_map, nrows_dfDelay,
    if_pos hi, delayCell_toQ_zero t hz i hi]
  norm_num

theorem reliabilityDenom_all_zero (t : Table)
    (hz : ∀ j : Nat, j < t.nrows → t.cellAt "Traffic_Delay_Minutes" j = some (Val.num 0))
    (hn : 0 < t.nrows) :
    reliabilityDenom (dfDelayIdx t) = some (1/10) := by
  rw [reliabilityDenom]
  have hcol : (dfDelayIdx t).getCol "Delay_Index" = some (delayIndexCol (dfDelay t)) :=
    getCol_setCol_self _ _ _
  rw [hcol, Option.getD_some]
  have hne : delayIndexCol (dfDelay t) ≠ [] := by
    rw [delayIndexCol, nrows_dfDelay]
    simp only [ne_eq, List.map_eq_nil_iff, List.range_eq_nil]
    omega
  have hempty : (delayIndexCol (dfDelay t)).isEmpty = false := by
    rw [List.isEmpty_eq_false_iff_exists_mem]
    rcases List.exists_mem_of_ne_nil _ hne with ⟨x, hx⟩
    exact ⟨x, hx⟩
  rw [hempty]
  simp only [Bool.false_eq_true, if_false]
  have hmax : pandasMax ((delayIndexCol (dfDelay t)).map Cell.toQ) = some 0 := by
    apply pandasMax_all_zero
    · simp only [ne_eq, List.map_eq_nil_iff]
      exact hne
    · intro x hx
      rcases List.mem_map.mp hx with ⟨c, hc, hcx⟩
      rw [delayIndexCol] at hc
      rcases List.mem_map.mp hc with ⟨j, hj, hjc⟩
      rw [List.mem_range, nrows_dfDelay] at hj
      rw [← hcx, ← hjc]
      show Cell.toQ ((((dfDelay t).cellAt "Traffic_Delay_Minutes" j).toQ).map
        (fun q => Val.num (q / 60))) = some 0
      rw [toQ_map_num, delayCell_toQ_zero t hz j hj]
      norm_num
  rw [hmax]
  show some (max (0:ℚ) (1/10)) = some (1/10)
  rw [max_eq_right (by norm_num : (0:ℚ) ≤ 1/10)]


/-- C1 counterexample: a table whose single row has `Traffic_Delay_Minutes = -60`
gets `Reliability_Score = 11`, which exceeds 1.0, refuting the universal bound
`Reliability_Score ≤ 1.0` claimed for every table. -/
theorem c1_reliability_counterexample :
    (compute_metrics c1CounterTable).cellAt "Reliability_Score" 0 = some (Val.num 11) ∧
    ¬ ((11:ℚ) ≤ 1) := by
  constructor
  · have hdel : ((dfDelay c1CounterTable).cellAt "Traffic_Delay_Minutes" 0).toQ =
        some (-60) := by
      rw [dfDelay]
      unfold ensureZeroCol
      rw [if_pos (by rw [Table.hasCol, getCol_dfFpk_delay]; rfl),
        cellAt_dfFpk_delay]
      rfl
    have hd : ((dfDelayIdx c1CounterTable).cellAt "Delay_Index" 0).toQ = some (-1) := by
      rw [dfDelayIdx, cellAt_setCol_self, delayIndexCol, getD_range_map, nrows_dfDelay,
        if_pos (by decide : (0:Nat) < c1CounterTable.nrows), toQ_map_num, hdel]
      show some ((-60 : ℚ) / 60) = some (-1)
      norm_num
    have hdcol : (dfDelayIdx c1CounterTable).cellAt "Delay_Index" 0 =
        some (Val.num (-1)) := by
      cases hc : (dfDelayIdx c1CounterTable).cellAt "Delay_Index" 0 with
      | none => rw [hc] at hd; simp [Cell.toQ] at hd
      | some v =>
        rw [hc] at hd
        cases v with
        | num q =>
          simp only [Cell.toQ, Option.bind, Val.toQ] at hd
          rw [Option.some.inj hd]
        | str s => simp [Cell.toQ, Val.toQ] at hd
    have hdn : reliabilityDenom (dfDelayIdx c1CounterTable) = some (1/10) := by
      rw [reliabilityDenom]
      have hcol : (dfDelayIdx c1CounterTable).getCol "Delay_Index" =
          some (delayIndexCol (dfDelay c1CounterTable)) := getCol_setCol_self _ _ _
      have hlist : delayIndexCol (dfDelay c1CounterTable) = [some (Val.num (-1))] := by
        rw [delayIndexCol, nrows_dfDelay]
        show List.map _ [0] = _
        rw [List.map_cons, List.map_nil, hdel]
        show [some (Val.num ((-60 : ℚ) / 60))] = [some (Val.num (-1))]
        norm_num
      rw [hcol, Option.getD_some, hlist]
      have hempty : ([some (Val.num (-1))] : List Cell).isEmpty = false := rfl
      rw [hempty]
      have hmax : pandasMax ([some (Val.num (-1))].map Cell.toQ) = some (-1) := rfl
      simp only [Bool.false_eq_true, if_false, hmax]
      show some (max (-1 : ℚ) (1/10)) = some (1/10)
      rw [max_eq_right (by norm_num : (-1:ℚ) ≤ 1/10)]
    rw [compute_metrics, cellAt_setCol_self, reliabilityCol, getD_range_map,
      if_pos (by rw [nrows_dfDelayIdx]; decide :
        (0:Nat) < (dfDelayIdx c1CounterTable).nrows),
      hdcol]
    have h1 : Cell.toQ (some (Val.num (-1))) = some (-1) := rfl
    rw [h1, hdn]
    show some (Val.num (1 - (-1 : ℚ) / (1/10))) = some (Val.num 11)
    norm_num
  · norm_num

/-- C1 (amended): for every table whose non-missing `Traffic_Delay_Minutes`
values are non-negative, every defined `Reliability_Score` in the table
returned by `compute_metrics` is ≤ 1.0; and when every row's
`Traffic_Delay_Minutes` equals 0, every row's `Reliability_Score` equals
exactly 1.0 (the denominator is floored at 0.1 and the numerator is 0). -/
theorem c1_reliability_bound (t : Table)
    (hpos : ∀ j : Nat, j < t.nrows → 0 ≤ ((t.cellAt "Traffic_Delay_Minutes" j).toQ.getD 0)) :
    (∀ i : Nat, ∀ r : ℚ,
        ((compute_metrics t).cellAt "Reliability_Score" i).toQ = some r → r ≤ 1) ∧
    ((∀ j : Nat, j < t.nrows → t.cellAt "Traffic_Delay_Minutes" j = some (Val.num 0)) →
      ∀ i : Nat, i < t.nrows →
        (compute_metrics t).cellAt "Reliability_Score" i = some (Val.num 1)) := by
  constructor
  · intro i r hr
    rw [compute_metrics, cellAt_setCol_self, reliabilityCol, getD_range_map] at hr
    by_cases hi : i < (dfDelayIdx t).nrows
    · rw [if_pos hi] at hr
      have hit : i < t.nrows := by rwa [nrows_dfDelayIdx] at hi
      cases hd : ((dfDelayIdx t).cellAt "Delay_Index" i).toQ with
      | none => rw [hd] at hr; simp [Cell.toQ] at hr
      | some d =>
        cases hdn : reliabilityDenom (dfDelayIdx t) with
        | none => rw [hd, hdn] at hr; simp [Cell.toQ] at hr
        | some dn =>
          rw [hd, hdn] at hr
          have hrd : r = 1 - d / dn := by
            simp only [Cell.toQ, Option.bind, Val.toQ] at hr
            exact (Option.some.inj hr).symm
          have hdn0 : 0 < dn := reliabilityDenom_pos _ dn hdn
          have hd0 : 0 ≤ d := by
            rw [dfDelayIdx, cellAt_setCol_self, delayIndexCol, getD_range_map,
              nrows_dfDelay, if_pos hit, toQ_map_num] at hd
            rcases Option.map_eq_some'.mp hd with ⟨q, hq, hqd⟩
            have hq0 : 0 ≤ q := delay_nonneg_preserved t i hpos q hq hit
            rw [← hqd]
            positivity
          have : 0 ≤ d / dn := div_nonneg hd0 (le_of_lt hdn0)
          rw [hrd]
          linarith
    · rw [if_neg hi] at hr
      simp [Cell.toQ] at hr
  · intro hz i hi
    have hi2 : i < (dfDelayIdx t).nrows := by rwa [nrows_dfDelayIdx]
    rw [compute_metrics, cellAt_setCol_self, reliabilityCol, getD_range_map, if_pos hi2,
      delayIdx_cell_zero t hz i hi,
      reliabilityDenom_all_zero t hz (Nat.lt_of_le_of_lt (Nat.zero_le i) hi)]
    have h0 : Cell.toQ (some (Val.num 0)) = some 0 := rfl
    rw [h0]
    show some (Val.num (1 - (0:ℚ) / (1/10))) = some (Val.num 1)
    norm_num


theorem cellAt_dfCost_ne (t : Table) (m : String) (i : Nat) (h : m ∉ costCols) :
    (dfCost t).cellAt m i = t.cellAt m i := by
  simp [Table.cellAt, getCol_dfCost_ne t m h]

theorem toQ_dist_dfFuelSrc (t : Table) (i : Nat) :
    ((dfFuelSrc t).cellAt "Distance_KM" i).toQ = (t.cellAt "Distance_KM" i).toQ := by
  rw [dfFuelSrc, toQ_cellAt_ensureNaNCol, cellAt_ensureNaNCol_ne _ _ _ _ (by decide),
    dfTotal, cellAt_setCol_ne _ _ _ _ _ (by decide), cellAt_dfCost_ne _ _ _ (by decide)]

/-- In `compute_metrics`, the `Fuel_per_KM` cell of a row whose distance is
missing or non-positive is missing (the `np.where` guard fails there). -/
theorem fuelPerKM_none_of_nonpos (t : Table) (i : Nat)
    (hd : ((t.cellAt "Distance_KM" i).toQ.getD 0) ≤ 0) :
    (compute_metrics t).cellAt "Fuel_per_KM" i = none := by
  have hcol : (compute_metrics t).getCol "Fuel_per_KM" =
      some (fuelPerKMCol (dfFuelSrc t)) := by
    rw [compute_metrics, getCol_setCol_ne _ _ _ _ (by decide), dfDelayIdx,
      getCol_setCol_ne _ _ _ _ (by decide), dfDelay,
      getCol_ensureZeroCol_ne _ _ _ (by decide), dfFpk, getCol_setCol_self]
  rw [Table.cellAt, hcol, Option.getD_some, fuelPerKMCol, getD_range_map]
  by_cases hi : i < (dfFuelSrc t).nrows
  · rw [if_pos hi]
    split
    · next d heq =>
      rw [toQ_dist_dfFuelSrc] at heq
      have hd0 : d ≤ 0 := by rw [heq] at hd; simpa using hd
      rw [if_neg (not_lt.mpr hd0)]
    · rfl
  · rw [if_neg hi]

/-- C2: in `compute_metrics`, whenever a row's `Distance_KM` is missing or ≤ 0,
that row's `Fuel_per_KM` is missing in the result — never an infinite value,
never zero, and never a division error. -/
theorem c2_fuel_per_km_division_safety (t : Table) (i : Nat)
    (hd : ((t.cellAt "Distance_KM" i).toQ.getD 0) ≤ 0) :
    (compute_metrics t).cellAt "Fuel_per_KM" i = none :=
  fuelPerKM_none_of_nonpos t i hd


/-- Witness: `Distance_KM = 0` with `Fuel_Consumption_L = 10` yields a missing
`Fuel_per_KM`, not a divide-by-zero fault. -/
theorem c2_fuel_per_km_division_safety_witness :
    (compute_metrics c2WitnessTable).cellAt "Fuel_per_KM" 0 = none :=
  c2_fuel_per_km_division_safety c2WitnessTable 0 (by decide)

theorem toQD_cellAt_dfCost_mem (t : Table) (c : String) (hc : c ∈ costCols) (i : Nat)
    (hi : i < t.nrows) :
    ((dfCost t).cellAt c i).toQ.getD 0 = (t.cellAt c i).toQ.getD 0 := by
  have h4 : i < (ensureZeroCol (ensureZeroCol (ensureZeroCol t "Fuel_Cost_INR")
      "Labor_Cost_INR") "Maintenance_Cost_INR").nrows := by
    rw [nrows_ensureZeroCol, nrows_ensureZeroCol, nrows_ensureZeroCol]; exact hi
  have h3 : i < (ensureZeroCol (ensureZeroCol t "Fuel_Cost_INR") "Labor_Cost_INR").nrows := by
    rw [nrows_ensureZeroCol, nrows_ensureZeroCol]; exact hi
  have h2 : i < (ensureZeroCol t "Fuel_Cost_INR").nrows := by
    rw [nrows_ensureZeroCol]; exact hi
  simp only [costCols, List.mem_cons] at hc
  rcases hc with hc | hc | hc | hc | hc
  · subst hc
    rw [dfCost_eq, cellAt_ensureZeroCol_ne _ _ _ _ (by decide),
      cellAt_ensureZeroCol_ne _ _ _ _ (by decide),
      cellAt_ensureZeroCol_ne _ _ _ _ (by decide),
      toQD_cellAt_ensureZeroCol _ _ _ hi]
  · subst hc
    rw [dfCost_eq, cellAt_ensureZeroCol_ne _ _ _ _ (by decide),
      cellAt_ensureZeroCol_ne _ _ _ _ (by decide),
      toQD_cellAt_ensureZeroCol _ _ _ h2,
      cellAt_ensureZeroCol_ne _ _ _ _ (by decide)]
  · subst hc
    rw [dfCost_eq, cellAt_ensureZeroCol_ne _ _ _ _ (by decide),
      toQD_cellAt_ensureZeroCol _ _ _ h3,
      cellAt_ensureZeroCol_ne _ _ _ _ (by decide),
      cellAt_ensureZeroCol_ne _ _ _ _ (by decide)]
  · subst hc
    rw [dfCost_eq, toQD_cellAt_ensureZeroCol _ _ _ h4,
      cellAt_ensureZeroCol_ne _ _ _ _ (by decide),
      cellAt_ensureZeroCol_ne _ _ _ _ (by decide),
      cellAt_ensureZeroCol_ne _ _ _ _ (by decide)]
  · exact absurd hc (List.not_mem_nil _)

/-- C5: every row's `Total_Cost_INR` computed by `compute_metrics` is the exact
sum of the four cost fields, a missing field (absent column or missing cell)
counting as 0. -/
theorem c5_cost_additivity (t : Table) (i : Nat) (hi : i < t.nrows) :
    (compute_metrics t).cellAt "Total_Cost_INR" i =
      some (Val.num ((t.cellAt "Fuel_Cost_INR" i).toQ.getD 0 +
        (t.cellAt "Labor_Cost_INR" i).toQ.getD 0 +
        (t.cellAt "Maintenance_Cost_INR" i).toQ.getD 0 +
        (t.cellAt "Toll_Charges_INR" i).toQ.getD 0)) := by
  have hcol : (compute_metrics t).getCol "Total_Cost_INR" =
      some (totalCostCol (dfCost t)) := by
    rw [compute_metrics, getCol_setCol_ne _ _ _ _ (by decide), dfDelayIdx,
      getCol_setCol_ne _ _ _ _ (by decide), dfDelay,
      getCol_ensureZeroCol_ne _ _ _ (by decide), dfFpk,
      getCol_setCol_ne _ _ _ _ (by decide), dfFuelSrc,
      getCol_ensureNaNCol_ne _ _ _ (by decide), getCol_ensureNaNCol_ne _ _ _ (by decide),
      dfTotal, getCol_setCol_self]
  rw [Table.cellAt, hcol, Option.getD_some, totalCostCol, getD_range_map, nrows_dfCost,
    if_pos hi]
  have hsum : sumCosts (dfCost t) i =
      (t.cellAt "Fuel_Cost_INR" i).toQ.getD 0 +
        (t.cellAt "Labor_Cost_INR" i).toQ.getD 0 +
        (t.cellAt "Maintenance_Cost_INR" i).toQ.getD 0 +
        (t.cellAt "Toll_Charges_INR" i).toQ.getD 0 := by
    rw [sumCosts]
    show 0 + ((dfCost t).cellAt "Fuel_Cost_INR" i).toQ.getD 0 +
        ((dfCost t).cellAt "Labor_Cost_INR" i).toQ.getD 0 +
        ((dfCost t).cellAt "Maintenance_Cost_INR" i).toQ.getD 0 +
        ((dfCost t).cellAt "Toll_Charges_INR" i).toQ.getD 0 = _
    rw [toQD_cellAt_dfCost_mem t _ (by decide) i hi,
      toQD_cellAt_dfCost_mem t _ (by decide) i hi,
      toQD_cellAt_dfCost_mem t _ (by decide) i hi,
      toQD_cellAt_dfCost_mem t _ (by decide) i hi]
    ring
  rw [hsum]


/-- Witness: fuel=100, labor=50, maintenance missing, toll=20 sums to 170. -/
theorem c5_cost_additivity_witness :
    (compute_metrics c5WitnessTable).cellAt "Total_Cost_INR" 0 =
      some (Val.num ((c5WitnessTable.cellAt "Fuel_Cost_INR" 0).toQ.getD 0 +
        (c5WitnessTable.cellAt "Labor_Cost_INR" 0).toQ.getD 0 +
        (c5WitnessTable.cellAt "Maintenance_Cost_INR" 0).toQ.getD 0 +
        (c5WitnessTable.cellAt "Toll_Charges_INR" 0).toQ.getD 0)) :=
  c5_cost_additivity c5WitnessTable 0 (by decide)

/-- C8: in `PredictWrapper._preprocess`, when `Fuel_per_KM` is absent and the
component columns are present, a row with distance 0 and fuel `fv` gets the
finite derived value `Fuel_per_KM = fv` (zero distance replaced by 1) — never a
division error and never a missing value — while `compute_metrics` makes the
same row's `Fuel_per_KM` missing. -/
theorem c8_wrapper_derivation_vs_metrics (t : Table) (i : Nat) (fv : ℚ)
    (t2 : Table) (j : Nat)
    (h1 : t.hasCol "Fuel_per_KM" = false)
    (h2 : t.hasCol "Fuel_Consumption_L" = true)
    (hdist : t.cellAt "Distance_KM" i = some (Val.num 0))
    (hfuel : t.cellAt "Fuel_Consumption_L" i = some (Val.num fv))
    (hi : i < t.nrows)
    (hd2 : ((t2.cellAt "Distance_KM" j).toQ.getD 0) ≤ 0) :
    (∃ t3 : Table, deriveFuelPerKM t = .ok t3 ∧
      t3.cellAt "Fuel_per_KM" i = some (Val.num fv)) ∧
    (compute_metrics t2).cellAt "Fuel_per_KM" j = none := by
  refine ⟨?_, fuelPerKM_none_of_nonpos t2 j hd2⟩
  cases hg : t.getCol "Distance_KM" with
  | none =>
    rw [Table.cellAt, hg] at hdist
    simp at hdist
  | some dcol =>
    refine ⟨t.setCol "Fuel_per_KM"
      ((List.range t.nrows).map (fun k =>
        divCell (((t.getCol "Fuel_Consumption_L").getD []).getD k none)
          (replaceZeroOne (dcol.getD k none)))), ?_, ?_⟩
    · rw [deriveFuelPerKM, if_pos ⟨h1, h2⟩, hg]
    · rw [cellAt_setCol_self, getD_range_map, if_pos hi]
      have hdc : dcol.getD i none = some (Val.num 0) := by
        rw [Table.cellAt, hg] at hdist
        exact hdist
      have hfc : ((t.getCol "Fuel_Consumption_L").getD []).getD i none =
          some (Val.num fv) := hfuel
      rw [hdc, hfc, replaceZeroOne, if_pos rfl]
      show some (Val.num (fv / 1)) = some (Val.num fv)
      rw [div_one]


/-- Witness: on a one-row table with fuel 7 and distance 0, the wrapper derives
`Fuel_per_KM = 7` while the Metrics Engine leaves it missing. -/
theorem c8_wrapper_derivation_vs_metrics_witness :
    (∃ t3 : Table, deriveFuelPerKM c8WitnessTable = .ok t3 ∧
      t3.cellAt "Fuel_per_KM" 0 = some (Val.num 7)) ∧
    (compute_metrics c8WitnessTable).cellAt "Fuel_per_KM" 0 = none :=
  c8_wrapper_derivation_vs_metrics c8WitnessTable 0 7 c8WitnessTable 0
    (by decide) (by decide) (by decide) (by decide) (by decide) (by decide)


/-- C3 (code defect): a raw feature table containing `Fuel_Consumption_L` but
lacking both `Fuel_per_KM` and `Distance_KM` makes `predict` raise a `KeyError`
from `_preprocess` (the derivation guard checks only `Fuel_Consumption_L`),
instead of synthesizing the absent columns as 0 as the specification states. -/
theorem c3_preprocess_keyerror :
    dummyWrapper.predict (.table c3FailingTable) = .error "KeyError: Distance_KM" := rfl

theorem nrows_ensureFeatures (fs : List String) (t : Table) :
    (ensureFeatures fs t).nrows = t.nrows := by
  induction fs generalizing t with
  | nil => rfl
  | cons f fs ih =>
    rw [ensureFeatures, List.foldl_cons]
    show (ensureFeatures fs _).nrows = t.nrows
    rw [ih]
    split <;> rfl

theorem nrows_weatherStage (t : Table) : (weatherStage t).nrows = t.nrows := by
  rw [weatherStage]
  split
  · rfl
  split <;> rfl

theorem nrows_deriveFuelPerKM (t X : Table) (h : deriveFuelPerKM t = .ok X) :
    X.nrows = t.nrows := by
  rw [deriveFuelPerKM] at h
  split at h
  · cases hg : t.getCol "Distance_KM" with
    | none => rw [hg] at h; exact absurd h (by simp)
    | some dcol =>
      rw [hg] at h
      have := Except.ok.inj h
      rw [← this]
      rfl
  · have := Except.ok.inj h
    rw [← this]

theorem preprocess_ok_length (fs : List String) (t : Table) (M : List (List Val))
    (h : preprocess fs t = .ok M) : M.length = t.nrows := by
  rw [preprocess] at h
  cases hD : deriveFuelPerKM t with
  | error e => rw [hD] at h; exact absurd h (by simp)
  | ok X =>
    rw [hD] at h
    have hM : M = valuesMatrix (ensureFeatures fs (weatherStage X)) fs :=
      (Except.ok.inj h).symm
    rw [hM, valuesMatrix, List.length_map, List.length_range, nrows_ensureFeatures,
      nrows_weatherStage, nrows_deriveFuelPerKM t X hD]

/-- C6: the stub fallback model returns exactly one zero per determinable input
row — `n` zeros for an `n`-row matrix, a single zero when the row count cannot
be determined — and, routed through the wrapper on a raw feature table whose
preprocessing succeeds, one zero per table row. -/
theorem c6_stub_model_determinism (m : List (List Val)) (v : Val) (t : Table)
    (M : List (List Val)) (h : preprocess defaultFeatures t = .ok M) :
    dummyPredict (.mat m) = List.replicate m.length 0 ∧
    dummyPredict (.scalar v) = [0] ∧
    dummyWrapper.predict (.table t) = .ok (List.replicate t.nrows 0) := by
  refine ⟨rfl, rfl, ?_⟩
  show (match preprocess defaultFeatures t with
    | .error e => Except.error e
    | .ok M2 => Except.ok (dummyPredict (.mat M2))) = .ok (List.replicate t.nrows 0)
  rw [h]
  show Except.ok (List.replicate M.length (0:ℚ)) = .ok (List.replicate t.nrows 0)
  rw [preprocess_ok_length defaultFeatures t M h]



/-- Witness: the stub on a 2-row matrix, on a scalar, and through the wrapper
on a concrete 2-row raw table. -/
theorem c6_stub_model_determinism_witness :
    dummyPredict (.mat [[Val.num 1], [Val.num 2]]) =
      List.replicate [[Val.num 1], [Val.num 2]].length 0 ∧
    dummyPredict (.scalar (Val.num 3)) = [0] ∧
    dummyWrapper.predict (.table c6WitnessTable) =
      .ok (List.replicate c6WitnessTable.nrows 0) :=
  c6_stub_model_determinism [[Val.num 1], [Val.num 2]] (Val.num 3) c6WitnessTable
    c6WitnessMatrix rfl

theorem nrows_applyChange (t : Table) (kv : String × Change) :
    (applyChange t kv).nrows = t.nrows := by
  rcases kv with ⟨k, ch⟩
  cases ch with
  | mul f =>
    show (if t.hasCol k then t.setCol k (((t.getCol k).getD []).map (mulCell f)) else t).nrows
        = t.nrows
    split <;> rfl
  | set v => rfl

theorem nrows_applyChanges (t : Table) (cs : List (String × Change)) :
    (applyChanges t cs).nrows = t.nrows := by
  induction cs generalizing t with
  | nil => rfl
  | cons c cs ih =>
    rw [applyChanges, List.foldl_cons]
    exact ((ih (applyChange t c)).trans (nrows_applyChange t c) :
      ((List.foldl applyChange (applyChange t c) cs).nrows = t.nrows))

/-- C4: with a non-empty base row, `estimate_impact` returns
`max(0, base_prediction − modified_prediction)` where the modified prediction is
taken on a copy of the base input with the changes applied; the result is never
negative even when the perturbation increases the predicted delay. -/
theorem c4_estimate_impact_clamped (model : Model) (base : Table)
    (changes : List (String × Change)) (b m : ℚ) (pb pm : List ℚ)
    (hn : base.nrows ≠ 0)
    (hb : model base = .ok pb) (hbh : pb.head? = some b)
    (hm : model (applyChanges base changes) = .ok pm) (hmh : pm.head? = some m) :
    estimate_impact model base changes = .ok (max 0 (b - m)) ∧
    0 ≤ max 0 (b - m) := by
  refine ⟨?_, le_max_left 0 _⟩
  have hinp : ¬ ((applyChanges base changes).nrows = 0) := by
    rw [nrows_applyChanges]; exact hn
  cases pb with
  | nil => simp at hbh
  | cons x xs =>
    have hx : x = b := by simpa using hbh
    subst hx
    cases pm with
    | nil => simp at hmh
    | cons y ys =>
      have hy : y = m := by simpa using hmh
      subst hy
      simp only [estimate_impact, if_neg hn, if_neg hinp, hb, hm, headPred]



/-- Witness: a perturbation that increases the predicted delay (2 → 5) is
clamped to an estimate of `max 0 (2 - 5)`, which is non-negative. -/
theorem c4_estimate_impact_clamped_witness :
    estimate_impact c4Model c4Base [("X", Change.set (Val.num 1))] =
      .ok (max 0 ((2:ℚ) - 5)) ∧
    (0:ℚ) ≤ max 0 ((2:ℚ) - 5) :=
  c4_estimate_impact_clamped c4Model c4Base [("X", Change.set (Val.num 1))] 2 5
    [2] [5] (by decide) rfl rfl rfl rfl

/-- C10: a multiplicative `("mul", factor)` directive for a feature absent from
the base input's columns is silently ignored (the estimate equals that of an
empty change set), whereas a literal replacement for an absent feature adds
that column to the modified row. -/
theorem c10_absent_column_asymmetry (model : Model) (base : Table) (k : String)
    (f : ℚ) (v : Val) (h : base.hasCol k = false) :
    estimate_impact model base [(k, Change.mul f)] = estimate_impact model base [] ∧
    (applyChanges base [(k, Change.set v)]).hasCol k = true := by
  have hmul : applyChanges base [(k, Change.mul f)] = base := by
    rw [applyChanges, List.foldl_cons, List.foldl_nil]
    show (if base.hasCol k then _ else base) = base
    rw [h]
    simp
  constructor
  · have hempty : applyChanges base [] = base := rfl
    rw [estimate_impact, estimate_impact, hmul, hempty]
  · rw [applyChanges, List.foldl_cons, List.foldl_nil]
    exact hasCol_setCol_self _ _ _


/-- Witness: a `mul` directive on the absent column `Fuel_per_KM` leaves the
estimate identical to an empty change set, and a literal write creates it. -/
theorem c10_absent_column_asymmetry_witness :
    estimate_impact (fun _ => .ok [1]) c10WitnessBase [("Fuel_per_KM", Change.mul (1/2))] =
      estimate_impact (fun _ => .ok [1]) c10WitnessBase [] ∧
    (applyChanges c10WitnessBase [("Fuel_per_KM", Change.set (Val.num 3))]).hasCol
      "Fuel_per_KM" = true :=
  c10_absent_column_asymmetry (fun _ => .ok [1]) c10WitnessBase "Fuel_per_KM" (1/2)
    (Val.num 3) (by decide)

theorem mem_insertLE (le : CAction → CAction → Bool) (a x : CAction) (l : List CAction)
    (hx : x ∈ insertLE le a l) : x = a ∨ x ∈ l := by
  induction l with
  | nil => simpa [insertLE] using hx
  | cons b bs ih =>
    rw [insertLE] at hx
    by_cases hc : le a b
    · rw [if_pos hc] at hx
      rcases List.mem_cons.mp hx with h1 | h1
      · exact Or.inl h1
      · exact Or.inr h1
    · rw [if_neg hc] at hx
      rcases List.mem_cons.mp hx with h1 | h1
      · exact Or.inr (h1 ▸ List.mem_cons_self b bs)
      · rcases ih h1 with h2 | h2
        · exact Or.inl h2
        · exact Or.inr (List.mem_cons_of_mem b h2)

theorem pairwise_insertLE (a : CAction) (l : List CAction)
    (hl : List.Pairwise (fun x y => x.priority ≤ y.priority) l) :
    List.Pairwise (fun x y => x.priority ≤ y.priority)
      (insertLE (fun x y => decide (x.priority ≤ y.priority)) a l) := by
  induction l with
  | nil => simp [insertLE]
  | cons b bs ih =>
    rw [List.pairwise_cons] at hl
    obtain ⟨hb, hbs⟩ := hl
    rw [insertLE]
    by_cases hc : a.priority ≤ b.priority
    · rw [if_pos (by simpa using hc)]
      refine List.Pairwise.cons ?_ (List.Pairwise.cons hb hbs)
      intro x hx
      rcases List.mem_cons.mp hx with h1 | h1
      · exact h1 ▸ hc
      · exact le_trans hc (hb x h1)
    · rw [if_neg (by simpa using hc)]
      refine List.Pairwise.cons ?_ (ih hbs)
      intro x hx
      rcases mem_insertLE _ a x bs hx with h1 | h1
      · exact h1 ▸ le_of_not_le hc
      · exact hb x h1

theorem pairwise_sortByPriority (l : List CAction) :
    List.Pairwise (fun x y => x.priority ≤ y.priority) (sortByPriority l) := by
  induction l with
  | nil => exact List.Pairwise.nil
  | cons a as ih =>
    exact pairwise_insertLE a (sortByLE (fun x y => decide (x.priority ≤ y.priority)) as) ih

/-- Witness: the amended C1 theorem applied to a concrete one-row, zero-delay table. -/
theorem c1_reliability_bound_witness :
    (∀ i : Nat, ∀ r : ℚ,
        ((compute_metrics c1WitnessTable).cellAt "Reliability_Score" i).toQ = some r → r ≤ 1) ∧
    ((∀ j : Nat, j < c1WitnessTable.nrows →
        c1WitnessTable.cellAt "Traffic_Delay_Minutes" j = some (Val.num 0)) →
      ∀ i : Nat, i < c1WitnessTable.nrows →
        (compute_metrics c1WitnessTable).cellAt "Reliability_Score" i = some (Val.num 1)) :=
  c1_reliability_bound c1WitnessTable (by decide)



/-- C9: the action list returned by `generate_corrective_actions` is always
sorted by priority ascending, and its priorities are exactly [1, 2, 3] when all
three catalogue actions are generated (or [2, 3] when the re-route action is
skipped), whether or not the crew text-enrichment step succeeds. -/
theorem c9_action_ranking (df : Table) (model : Model) (base : Table)
    (crew : Option (String → Except String String)) (acts : List CAction)
    (h : generate_corrective_actions df model base crew = .ok acts) :
    List.Pairwise (fun a b => a.priority ≤ b.priority) acts ∧
    (acts.map (fun a => a.priority) = [1, 2, 3] ∨
      acts.map (fun a => a.priority) = [2, 3]) := by
  simp only [generate_corrective_actions] at h
  split at h
  next => exact Except.noConfusion h
  next keyCol hroute =>
  split at h
  next => exact Except.noConfusion h
  next valCol hval =>
  split at h
  next => exact Except.noConfusion h
  next actions1 heq1 =>
  split at heq1
  next k mq hhead =>
    split at heq1
    next => exact Except.noConfusion heq1
    next e1 he1 =>
      have ha1 := Except.ok.inj heq1
      subst ha1
      split at h
      next => exact Except.noConfusion h
      next w hw =>
      split at h
      next => exact Except.noConfusion h
      next e2 he2 =>
      split at h
      next => exact Except.noConfusion h
      next e3 he3 =>
      split at h
      next =>
        have hacts := (Except.ok.inj h).symm
        subst hacts
        exact ⟨pairwise_sortByPriority _, Or.inl rfl⟩
      next run =>
      split at h
      next =>
        have hacts := (Except.ok.inj h).symm
        subst hacts
        exact ⟨pairwise_sortByPriority _, Or.inl rfl⟩
      next txt htxt =>
        simp only [List.cons_append, List.nil_append] at h
        have hacts := (Except.ok.inj h).symm
        subst hacts
        exact ⟨pairwise_sortByPriority _, Or.inl rfl⟩
  next hhead =>
    have ha1 := Except.ok.inj heq1
    subst ha1
    split at h
    next => exact Except.noConfusion h
    next w hw =>
    split at h
    next => exact Except.noConfusion h
    next e2 he2 =>
    split at h
    next => exact Except.noConfusion h
    next e3 he3 =>
    split at h
    next =>
      have hacts := (Except.ok.inj h).symm
      subst hacts
      exact ⟨pairwise_sortByPriority _, Or.inr rfl⟩
    next run =>
    split at h
    next =>
      have hacts := (Except.ok.inj h).symm
      subst hacts
      exact ⟨pairwise_sortByPriority _, Or.inr rfl⟩
    next txt htxt =>
      simp only [List.cons_append, List.nil_append] at h
      have hacts := (Except.ok.inj h).symm
      subst hacts
      exact ⟨pairwise_sortByPriority _, Or.inr rfl⟩





/-- Witness: the ranking theorem applied to a concrete run that generates all
three catalogue actions. -/
theorem c9_action_ranking_witness :
    List.Pairwise (fun a b => a.priority ≤ b.priority) c9Acts ∧
    (c9Acts.map (fun a => a.priority) = [1, 2, 3] ∨
      c9Acts.map (fun a => a.priority) = [2, 3]) :=
  c9_action_ranking c9Df c9Model c9Base none c9Acts rfl

/-- C7: for each of the five named input files, if that file is missing (and
the files read before it are present), `load_and_merge_data` fails with an
error naming the expected path and produces no merged table; this includes
`vehicle_fleet.csv` even though it is never joined into the unified table. -/
theorem c7_missing_data_file (fs : DataFS) (name : String)
    (hmem : name ∈ requiredFiles) (hmiss : fs name = none)
    (hbefore : ∀ p, p ∈ requiredFiles.takeWhile (fun q => q ≠ name) →
      (fs p).isSome = true) :
    load_and_merge_data fs =
      .error ("Required data file not found: " ++ dataPath name) := by
  simp only [requiredFiles, List.mem_cons] at hmem
  rcases hmem with h | h | h | h | h | h
  · subst h
    simp only [load_and_merge_data, read_csv, hmiss]
  · subst h
    obtain ⟨t1, h1⟩ := Option.isSome_iff_exists.mp (hbefore "orders.csv" (by decide))
    simp only [load_and_merge_data, read_csv, h1, hmiss]
  · subst h
    obtain ⟨t1, h1⟩ := Option.isSome_iff_exists.mp (hbefore "orders.csv" (by decide))
    obtain ⟨t2, h2⟩ :=
      Option.isSome_iff_exists.mp (hbefore "delivery_performance.csv" (by decide))
    simp only [load_and_merge_data, read_csv, h1, h2, hmiss]
  · subst h
    obtain ⟨t1, h1⟩ := Option.isSome_iff_exists.mp (hbefore "orders.csv" (by decide))
    obtain ⟨t2, h2⟩ :=
      Option.isSome_iff_exists.mp (hbefore "delivery_performance.csv" (by decide))
    obtain ⟨t3, h3⟩ :=
      Option.isSome_iff_exists.mp (hbefore "routes_distance.csv" (by decide))
    simp only [load_and_merge_data, read_csv, h1, h2, h3, hmiss]
  · subst h
    obtain ⟨t1, h1⟩ := Option.isSome_iff_exists.mp (hbefore "orders.csv" (by decide))
    obtain ⟨t2, h2⟩ :=
      Option.isSome_iff_exists.mp (hbefore "delivery_performance.csv" (by decide))
    obtain ⟨t3, h3⟩ :=
      Option.isSome_iff_exists.mp (hbefore "routes_distance.csv" (by decide))
    obtain ⟨t4, h4⟩ :=
      Option.isSome_iff_exists.mp (hbefore "cost_breakdown.csv" (by decide))
    simp only [load_and_merge_data, read_csv, h1, h2, h3, h4, hmiss]
  · exact absurd h (List.not_mem_nil _)


/-- Witness: with only `vehicle_fleet.csv` missing, the merge fails with the
error naming its expected path. -/
theorem c7_missing_data_file_witness :
    load_and_merge_data c7WitnessFS =
      .error ("Required data file not found: " ++ dataPath "vehicle_fleet.csv") :=
  c7_missing_data_file c7WitnessFS "vehicle_fleet.csv" (by decide) (by decide)
    (by decide)
